import Mathlib

/-!
Shallow embedding of the commit-message validator of `check_commits.py`.

The embedding models the Python string primitives the validator uses
(`str.splitlines`, `str.strip`, `str.lower`, `str.startswith`, the `in`
substring test, list indexing) and translates `validate_commit_message`
(source lines 63-107) line by line.  Machine integers do not appear: the
two character limits are the positive-integer configuration values of the
action, modelled as `Nat`.
-/

/-- ASCII lowercasing of one character, as Python `str.lower` acts on the
ASCII range. -/
def pyLowerChar (c : Char) : Char :=
  if 'A' ≤ c ∧ c ≤ 'Z' then Char.ofNat (c.toNat + 32) else c

/-- Python `s.lower()` (ASCII fragment; no character relevant to the
validator's marker tests lowercases across the ASCII boundary). -/
def pyLower (s : String) : String := ⟨s.data.map pyLowerChar⟩

/-- The whitespace characters Python `str.strip()` removes that are not
also line breaks (line breaks never occur inside a line produced by
`splitlines`). -/
def isPySpace (c : Char) : Bool :=
  c == ' ' || c == '\t' || c.toNat == 0xa0 || c.toNat == 0x1680 ||
    (0x2000 ≤ c.toNat && c.toNat ≤ 0x200a) || c.toNat == 0x202f ||
    c.toNat == 0x205f || c.toNat == 0x3000

/-- Python `s.strip()`: remove whitespace from both ends. -/
def pyStrip (s : String) : String :=
  ⟨((s.data.dropWhile isPySpace).reverse.dropWhile isPySpace).reverse⟩

/-- The characters Python `str.splitlines()` treats as line boundaries. -/
def isLineBreak (c : Char) : Bool :=
  c == '\n' || c == '\r' || c == '\x0b' || c == '\x0c' ||
    c.toNat == 0x1c || c.toNat == 0x1d || c.toNat == 0x1e ||
    c.toNat == 0x85 || c.toNat == 0x2028 || c.toNat == 0x2029

/-- Worker for `splitlines`: `acc` holds the current line reversed;
`\r\n` counts as a single boundary and a trailing boundary produces no
trailing empty line. -/
def splitlinesAux : List Char → List Char → List (List Char)
  | acc, [] => if acc.isEmpty then [] else [acc.reverse]
  | acc, '\r' :: '\n' :: rest => acc.reverse :: splitlinesAux [] rest
  | acc, c :: rest =>
      if isLineBreak c then acc.reverse :: splitlinesAux [] rest
      else splitlinesAux (c :: acc) rest

/-- Python `s.splitlines()` (line endings dropped, no trailing empty
line for a trailing terminator, `"".splitlines() == []`). -/
def splitlines (s : String) : List String :=
  (splitlinesAux [] s.data).map fun l => ⟨l⟩

/-- Python `s.startswith(p)`. -/
def pyStartsWith (s p : String) : Bool := p.data.isPrefixOf s.data

/-- Does `needle` occur as a contiguous run inside `hay`? -/
def listHasInfix (needle : List Char) : List Char → Bool
  | [] => needle.isEmpty
  | c :: rest => needle.isPrefixOf (c :: rest) || listHasInfix needle rest

/-- Python `p in s` substring membership. -/
def pyContains (s p : String) : Bool := listHasInfix p.data s.data

/-- Violation text of source line 93. -/
def msgMissingSubject : String := "Commit message is missing subject!"

/-- Violation text of source line 95. -/
def msgSubjectLen (sub_char_limit : Nat) : String :=
  "Subject exceeds " ++ toString sub_char_limit ++ " characters!"

/-- Violation text of source line 98. -/
def msgSep1 : String := "Subject and body must be separated by a blank line"

/-- Violation text of source line 100. -/
def msgSep2 : String := "Body and Signed-off-by must be separated by a blank line"

/-- Violation text of source line 102. -/
def msgMissingBody : String := "Commit message is missing a body!"

/-- Violation text of source line 105. -/
def msgLine (body_char_limit : Nat) (line : String) : String :=
  "Line exceeds " ++ toString body_char_limit ++ " characters: " ++ line

/-- The list comprehension of source lines 70-74 and 83-87: strip each
line, keeping those that are non-blank and whose raw lowercase form does
not start with the sign-off marker. -/
def collectBody (ls : List String) : List String :=
  (ls.filter fun line =>
    pyStrip line != "" && !(pyStartsWith (pyLower line) "signed-off-by")).map pyStrip

/-- Field `subject` of source line 69: `lines[0] if n >= 1 else ""`. -/
def subjectOf (message : String) : String :=
  let lines := splitlines message
  if 1 ≤ lines.length then lines.getD 0 "" else ""

/-- The body-line collection `validate_commit_message` ends up using
(source lines 70-74, overridden at lines 82-87 when blank-line checking
is on and line 1 is absent or blank). -/
def messageBody (message check_blank_line : String) : List String :=
  let lines := splitlines message
  if pyLower check_blank_line == "true" &&
      !(decide (1 < lines.length) && pyStrip (lines.getD 1 "") != "") then
    collectBody (lines.drop 2)
  else collectBody (lines.drop 1)

/-- Field `signed_off` of source line 75:
`lines[-1] if n > 0 and "signed-off-by" in lines[-1].lower() else ""`. -/
def signedOffLine (message : String) : String :=
  let lines := splitlines message
  if decide (0 < lines.length) &&
      pyContains (pyLower (lines.getD (lines.length - 1) "")) "signed-off-by" then
    lines.getD (lines.length - 1) ""
  else ""

/-- Flag `missing_sub_body_line` after source lines 76-81: set exactly when
blank-line checking is on, line 1 exists and line 1 is non-blank after
stripping. -/
def missingSubBodyLine (message check_blank_line : String) : Bool :=
  let lines := splitlines message
  pyLower check_blank_line == "true" &&
    (decide (1 < lines.length) && pyStrip (lines.getD 1 "") != "")

/-- Flag `missing_body_sign_line` after source lines 77 and 88-89: set exactly
when blank-line checking is on, a sign-off line was detected, at least two
lines exist and the second-to-last line is non-blank after stripping. -/
def missingBodySignLine (message check_blank_line : String) : Bool :=
  let lines := splitlines message
  pyLower check_blank_line == "true" &&
    (signedOffLine message != "" && decide (2 ≤ lines.length) &&
      pyStrip (lines.getD (lines.length - 2) "") != "")

/-- The `for line in body` loop of source lines 103-105: append one
violation per body line exceeding the limit, in body order. -/
def appendLineViolations (body_char_limit : Nat) (errors body : List String) :
    List String :=
  body.foldl
    (fun errs line =>
      if body_char_limit < line.length then errs ++ [msgLine body_char_limit line]
      else errs)
    errors

/-- Translation of `validate_commit_message` of `check_commits.py` (source lines 63-107).
The commit dictionary is passed as its two fields `sha` and `message`; the
`errors` list is threaded through the same sequence of conditional appends
as the Python function body. -/
def validate_commit_message (sha message : String)
    (sub_char_limit body_char_limit : Nat) (check_blank_line : String) :
    String × List String :=
  let subject := subjectOf message
  let body := messageBody message check_blank_line
  let signed_off := signedOffLine message
  let missing_sub_body_line := missingSubBodyLine message check_blank_line
  let missing_body_sign_line := missingBodySignLine message check_blank_line
  let errors : List String := []
  let errors :=
    if (pyStrip subject).length == 0 then errors ++ [msgMissingSubject] else errors
  let errors :=
    if sub_char_limit < subject.length then errors ++ [msgSubjectLen sub_char_limit]
    else errors
  let errors :=
    if pyLower check_blank_line == "true" then
      let errors2 :=
        if missing_sub_body_line && subject != "" && !body.isEmpty then
          errors ++ [msgSep1]
        else errors
      let errors3 :=
        if missing_body_sign_line && !body.isEmpty && signed_off != "" then
          errors2 ++ [msgSep2]
        else errors2
      errors3
    else errors
  let errors := if body.length == 0 then errors ++ [msgMissingBody] else errors
  let errors := appendLineViolations body_char_limit errors body
  (sha, errors)

/-- Outcome of the missing-subject rule (source lines 92-93). -/
def ruleMissingSubject (message : String) : List String :=
  if (pyStrip (subjectOf message)).length == 0 then [msgMissingSubject] else []

/-- Outcome of the subject-length rule (source lines 94-95). -/
def ruleSubjectLen (message : String) (sub_char_limit : Nat) : List String :=
  if sub_char_limit < (subjectOf message).length then [msgSubjectLen sub_char_limit]
  else []

/-- Outcome of the subject/body separator rule (source lines 96-98). -/
def ruleSep1 (message check_blank_line : String) : List String :=
  if pyLower check_blank_line == "true" then
    if missingSubBodyLine message check_blank_line && subjectOf message != "" &&
        !(messageBody message check_blank_line).isEmpty then [msgSep1]
    else []
  else []

/-- Outcome of the body/sign-off separator rule (source lines 96, 99-100). -/
def ruleSep2 (message check_blank_line : String) : List String :=
  if pyLower check_blank_line == "true" then
    if missingBodySignLine message check_blank_line &&
        !(messageBody message check_blank_line).isEmpty && signedOffLine message != "" then
      [msgSep2]
    else []
  else []

/-- Outcome of the missing-body rule (source lines 101-102). -/
def ruleMissingBody (message check_blank_line : String) : List String :=
  if (messageBody message check_blank_line).length == 0 then [msgMissingBody] else []

/-- Outcome of the per-line length rule (source lines 103-105): one
violation per over-long collected body line, in body order. -/
def ruleLineLengths (message check_blank_line : String) (body_char_limit : Nat) :
    List String :=
  ((messageBody message check_blank_line).filter fun line =>
    decide (body_char_limit < line.length)).map (msgLine body_char_limit)

/-- The index from which `validate_commit_message` collects body lines:
2 exactly when blank-line checking is on and line 1 is absent or blank,
else 1 (source lines 70-74 and 79-87). -/
def bodyStart (message check_blank_line : String) : Nat :=
  let lines := splitlines message
  if pyLower check_blank_line == "true" &&
      !(decide (1 < lines.length) && pyStrip (lines.getD 1 "") != "") then 2
  else 1

/-- Variant of `messageBody` with the blank-line flag already decoded to a `Bool`. -/
def messageBodyBool (message : String) (enforce : Bool) : List String :=
  let lines := splitlines message
  if enforce && !(decide (1 < lines.length) && pyStrip (lines.getD 1 "") != "") then
    collectBody (lines.drop 2)
  else collectBody (lines.drop 1)

/-- Variant of `missingSubBodyLine` with the flag already decoded to a `Bool`. -/
def missingSubBodyLineBool (message : String) (enforce : Bool) : Bool :=
  let lines := splitlines message
  enforce && (decide (1 < lines.length) && pyStrip (lines.getD 1 "") != "")

/-- Variant of `missingBodySignLine` with the flag already decoded to a `Bool`. -/
def missingBodySignLineBool (message : String) (enforce : Bool) : Bool :=
  let lines := splitlines message
  enforce &&
    (signedOffLine message != "" && decide (2 ≤ lines.length) &&
      pyStrip (lines.getD (lines.length - 2) "") != "")

/-- Variant of `validate_commit_message` with the blank-line flag already decoded to
a `Bool`: the reference meaning of the flag, to compare with the string
flag the source actually receives. -/
def validateBool (sha message : String)
    (sub_char_limit body_char_limit : Nat) (enforce : Bool) :
    String × List String :=
  let subject := subjectOf message
  let body := messageBodyBool message enforce
  let signed_off := signedOffLine message
  let missing_sub_body_line := missingSubBodyLineBool message enforce
  let missing_body_sign_line := missingBodySignLineBool message enforce
  let errors : List String := []
  let errors :=
    if (pyStrip subject).length == 0 then errors ++ [msgMissingSubject] else errors
  let errors :=
    if sub_char_limit < subject.length then errors ++ [msgSubjectLen sub_char_limit]
    else errors
  let errors :=
    if enforce then
      let errors2 :=
        if missing_sub_body_line && subject != "" && !body.isEmpty then
          errors ++ [msgSep1]
        else errors
      let errors3 :=
        if missing_body_sign_line && !body.isEmpty && signed_off != "" then
          errors2 ++ [msgSep2]
        else errors2
      errors3
    else errors
  let errors := if body.length == 0 then errors ++ [msgMissingBody] else errors
  let errors := appendLineViolations body_char_limit errors body
  (sha, errors)

/-- Python list indexing as an `Option`: negative indices count from the
end, and an out-of-range index raises (returns `none`). -/
def pyIndex (ls : List String) (i : Int) : Option String :=
  let j := if i < 0 then (ls.length : Int) + i else i
  if 0 ≤ j then ls[j.toNat]? else none

/-- Variant of `validate_commit_message` with every list indexing of the source
(`lines[0]`, `lines[1]`, `lines[-1]`, `lines[-2]`) performed through
`pyIndex` behind exactly the length guards the source places before it;
`none` would mean an uncaught `IndexError`. -/
def validateChecked (sha message : String)
    (sub_char_limit body_char_limit : Nat) (check_blank_line : String) :
    Option (String × List String) :=
  let lines := splitlines message
  let n := lines.length
  (if 1 ≤ n then pyIndex lines 0 else pure "").bind fun subject =>
  (if 0 < n then
      (pyIndex lines (-1)).bind fun last =>
        pure (if pyContains (pyLower last) "signed-off-by" then last else "")
    else pure "").bind fun signed_off =>
  (if pyLower check_blank_line == "true" then
      if 1 < n then
        (pyIndex lines 1).bind fun line1 =>
          if pyStrip line1 != "" then pure (true, collectBody (lines.drop 1))
          else pure (false, collectBody (lines.drop 2))
      else pure (false, collectBody (lines.drop 2))
    else pure (false, collectBody (lines.drop 1))).bind fun st =>
  (if pyLower check_blank_line == "true" then
      if signed_off != "" && decide (2 ≤ n) then
        (pyIndex lines (-2)).bind fun penult => pure (pyStrip penult != "")
      else pure false
    else pure false).bind fun missing_body_sign_line =>
  let missing_sub_body_line := st.1
  let body := st.2
  let errors : List String := []
  let errors :=
    if (pyStrip subject).length == 0 then errors ++ [msgMissingSubject] else errors
  let errors :=
    if sub_char_limit < subject.length then errors ++ [msgSubjectLen sub_char_limit]
    else errors
  let errors :=
    if pyLower check_blank_line == "true" then
      let errors2 :=
        if missing_sub_body_line && subject != "" && !body.isEmpty then
          errors ++ [msgSep1]
        else errors
      let errors3 :=
        if missing_body_sign_line && !body.isEmpty && signed_off != "" then
          errors2 ++ [msgSep2]
        else errors2
      errors3
    else errors
  let errors := if body.length == 0 then errors ++ [msgMissingBody] else errors
  let errors := appendLineViolations body_char_limit errors body
  pure (sha, errors)

/-! ## General lemmas about the validator -/

theorem appendLineViolations_eq (b : Nat) (body : List String) :
    ∀ errs, appendLineViolations b errs body =
      errs ++ (body.filter fun l => decide (b < l.length)).map (msgLine b) := by
  induction body with
  | nil => intro errs; simp [appendLineViolations]
  | cons x xs ih =>
      intro errs
      by_cases h : b < x.length
      · simp only [appendLineViolations, List.foldl_cons, if_pos h] at ih ⊢
        rw [ih]
        simp [List.filter_cons, h]
      · simp only [appendLineViolations, List.foldl_cons, if_neg h] at ih ⊢
        rw [ih]
        simp [List.filter_cons, h]

theorem ite_append_push (c : Prop) [Decidable c] (e x : List String) :
    (if c then e ++ x else e) = e ++ (if c then x else []) := by
  split <;> simp

/-- The violation list is the concatenation, in the source's fixed order,
of the six independent rule outcomes. -/
theorem validationErrors_eq (sha message : String) (s b : Nat) (flag : String) :
    (validate_commit_message sha message s b flag).2 =
      ruleMissingSubject message ++ ruleSubjectLen message s ++ ruleSep1 message flag ++
        ruleSep2 message flag ++ ruleMissingBody message flag ++
        ruleLineLengths message flag b := by
  simp only [validate_commit_message, appendLineViolations_eq, ruleMissingSubject,
    ruleSubjectLen, ruleSep1, ruleSep2, ruleMissingBody, ruleLineLengths,
    ite_append_push, List.nil_append, List.append_assoc]
  by_cases hf : pyLower flag == "true"
  · simp only [hf, if_true, ite_append_push, List.nil_append, List.append_assoc]
    split <;> rename_i h3 <;> simp [h3, List.append_assoc]
  · simp [hf, ite_append_push, List.append_assoc]

theorem collectBody_cons_blank (x : String) (ls : List String)
    (hx : pyStrip x = "") : collectBody (x :: ls) = collectBody ls := by
  simp [collectBody, List.filter_cons, hx]

/-- The collected body is the same whichever start index the source picks:
when it restarts at index 2, line 1 is absent or blank and would have been
filtered out anyway.  In particular the body does not depend on the
blank-line flag. -/
theorem messageBody_eq_collect (message flag : String) :
    messageBody message flag = collectBody ((splitlines message).drop 1) := by
  simp only [messageBody]
  split
  case isTrue h =>
    rcases Bool.and_eq_true_iff.mp h with ⟨-, hneg⟩
    rw [Bool.not_eq_true'] at hneg
    by_cases h1n : 1 < (splitlines message).length
    · have hblank : pyStrip ((splitlines message).getD 1 "") = "" := by
        rcases Bool.and_eq_false_iff.mp hneg with h1 | h2
        · exact absurd h1n (by simpa using h1)
        · simpa using h2
      have hget : (splitlines message).getD 1 "" = (splitlines message)[1] := by
        simp [List.getD_eq_getElem?_getD, List.getElem?_eq_getElem h1n]
      rw [List.drop_eq_getElem_cons h1n,
        collectBody_cons_blank _ _ (hget ▸ hblank)]
    · rw [List.drop_eq_nil_of_le (by omega), List.drop_eq_nil_of_le (by omega)]
  case isFalse => rfl

/-! ## Distinctness of the violation messages -/

theorem strNeOfGet (s t : String) (i : Nat) (h : s.data[i]? ≠ t.data[i]?) :
    s ≠ t := fun he => h (by rw [he])

theorem msgSubjectLen_data (s : Nat) : (msgSubjectLen s).data =
    "Subject exceeds ".data ++ ((toString s).data ++ " characters!".data) := by
  simp [msgSubjectLen, List.append_assoc]

theorem msgLine_data (b : Nat) (l : String) : (msgLine b l).data =
    "Line exceeds ".data ++
      ((toString b).data ++ (" characters: ".data ++ l.data)) := by
  simp [msgLine, List.append_assoc]

theorem msgSubjectLen_get (s i : Nat) (hi : i < 16) :
    (msgSubjectLen s).data[i]? = "Subject exceeds ".data[i]? := by
  have h16 : ("Subject exceeds ".data).length = 16 := by decide
  rw [msgSubjectLen_data, List.getElem?_append_left (by omega)]

theorem msgLine_get (b : Nat) (l : String) (i : Nat) (hi : i < 13) :
    (msgLine b l).data[i]? = "Line exceeds ".data[i]? := by
  have h13 : ("Line exceeds ".data).length = 13 := by decide
  rw [msgLine_data, List.getElem?_append_left (by omega)]

theorem msgSubjectLen_ne_sep1 (s : Nat) : msgSubjectLen s ≠ msgSep1 := by
  apply strNeOfGet _ _ 8
  rw [msgSubjectLen_get s 8 (by omega)]
  decide

theorem msgSubjectLen_ne_sep2 (s : Nat) : msgSubjectLen s ≠ msgSep2 := by
  apply strNeOfGet _ _ 0
  rw [msgSubjectLen_get s 0 (by omega)]
  decide

theorem msgSubjectLen_ne_missingSubject (s : Nat) :
    msgSubjectLen s ≠ msgMissingSubject := by
  apply strNeOfGet _ _ 0
  rw [msgSubjectLen_get s 0 (by omega)]
  decide

theorem msgSubjectLen_ne_missingBody (s : Nat) :
    msgSubjectLen s ≠ msgMissingBody := by
  apply strNeOfGet _ _ 0
  rw [msgSubjectLen_get s 0 (by omega)]
  decide

theorem msgLine_ne_missingSubject (b : Nat) (l : String) :
    msgLine b l ≠ msgMissingSubject := by
  apply strNeOfGet _ _ 0
  rw [msgLine_get b l 0 (by omega)]
  decide

theorem msgLine_ne_missingBody (b : Nat) (l : String) :
    msgLine b l ≠ msgMissingBody := by
  apply strNeOfGet _ _ 0
  rw [msgLine_get b l 0 (by omega)]
  decide

theorem msgLine_ne_sep1 (b : Nat) (l : String) : msgLine b l ≠ msgSep1 := by
  apply strNeOfGet _ _ 0
  rw [msgLine_get b l 0 (by omega)]
  decide

theorem msgLine_ne_sep2 (b : Nat) (l : String) : msgLine b l ≠ msgSep2 := by
  apply strNeOfGet _ _ 0
  rw [msgLine_get b l 0 (by omega)]
  decide

theorem msgLine_ne_subjectLen (b : Nat) (l : String) (s : Nat) :
    msgLine b l ≠ msgSubjectLen s := by
  apply strNeOfGet _ _ 0
  rw [msgLine_get b l 0 (by omega), msgSubjectLen_get s 0 (by omega)]
  decide

/-- The text of a body line is a substring of its violation message. -/
theorem listHasInfix_append (pre l : List Char) :
    listHasInfix l (pre ++ l) = true := by
  induction pre with
  | nil =>
      cases l with
      | nil => rfl
      | cons c rest => simp [listHasInfix, List.isPrefixOf_iff_prefix]
  | cons c pre ih => simp [listHasInfix, ih]

theorem pyContains_msgLine (b : Nat) (l : String) :
    pyContains (msgLine b l) l = true := by
  rw [pyContains, msgLine_data, ← List.append_assoc, ← List.append_assoc]
  exact listHasInfix_append _ _

theorem strLenZero (s : String) : s.length = 0 ↔ s = "" := by
  constructor
  · intro h
    cases s with
    | mk l =>
        cases l with
        | nil => rfl
        | cons a t => simp [String.length] at h
  · intro h
    subst h
    rfl

theorem not_mem_ite_singleton {c : Prop} [Decidable c] {x y : String}
    (h : x ≠ y) : x ∉ (if c then [y] else []) := by
  split <;> simp [h]

theorem filter_keep_ite (c : Prop) [Decidable c] (p : String → Bool) (y : String)
    (hy : p y = true) : (if c then [y] else []).filter p = (if c then [y] else []) := by
  split <;> simp [hy]

theorem filter_drop_ite (c : Prop) [Decidable c] (p : String → Bool) (y : String)
    (hy : p y = false) : (if c then [y] else []).filter p = [] := by
  split <;> simp [hy]

theorem not_mem_ruleSep1 (m flag : String) {x : String} (h : x ≠ msgSep1) :
    x ∉ ruleSep1 m flag := by
  unfold ruleSep1
  split
  · exact not_mem_ite_singleton h
  · simp

theorem not_mem_ruleSep2 (m flag : String) {x : String} (h : x ≠ msgSep2) :
    x ∉ ruleSep2 m flag := by
  unfold ruleSep2
  split
  · exact not_mem_ite_singleton h
  · simp

theorem not_mem_ruleLineLengths (m flag : String) (b : Nat) {x : String}
    (h : ∀ l, x ≠ msgLine b l) : x ∉ ruleLineLengths m flag b := by
  unfold ruleLineLengths
  intro hx
  rcases List.mem_map.mp hx with ⟨l, -, hl⟩
  exact h l hl.symm

/-! ## Claim theorems -/

/-- C5: for every message and configuration the violation list is exactly
the concatenation, in the fixed order missing-subject, subject-length,
subject/body separator (only when enforced), body/sign-off separator (only
when enforced), missing-body, then one violation per over-long body line
in body order, of the six rule outcomes; every applicable rule contributes
its violation, with no short-circuiting. -/
theorem rule_order_and_completeness (sha message : String) (s b : Nat)
    (flag : String) :
    (validate_commit_message sha message s b flag).2 =
      ruleMissingSubject message ++ ruleSubjectLen message s ++
        ruleSep1 message flag ++ ruleSep2 message flag ++
        ruleMissingBody message flag ++ ruleLineLengths message flag b :=
  validationErrors_eq sha message s b flag

/-- C6: the violation list ends with exactly one per-line violation for
each collected body line longer than `body_char_limit`, in body order, the
count of these equals the count of over-long body lines, and each such
violation message contains the offending (already stripped) line text
verbatim as a substring. -/
theorem line_violations_exact (sha message : String) (s b : Nat) (flag : String) :
    (validate_commit_message sha message s b flag).2 =
      (ruleMissingSubject message ++ ruleSubjectLen message s ++
        ruleSep1 message flag ++ ruleSep2 message flag ++
        ruleMissingBody message flag) ++
        ((messageBody message flag).filter fun l => decide (b < l.length)).map
          (msgLine b) ∧
    (((messageBody message flag).filter fun l => decide (b < l.length)).map
        (msgLine b)).length =
      ((messageBody message flag).filter fun l => decide (b < l.length)).length ∧
    ∀ l : String, pyContains (msgLine b l) l = true := by
  refine ⟨?_, List.length_map _ _, fun l => pyContains_msgLine b l⟩
  rw [validationErrors_eq]
  simp [ruleLineLengths, List.append_assoc]

theorem ruleSep1_false (m : String) : ruleSep1 m "false" = [] := by
  unfold ruleSep1
  rw [if_neg (by decide)]

theorem ruleSep2_false (m : String) : ruleSep2 m "false" = [] := by
  unfold ruleSep2
  rw [if_neg (by decide)]

theorem filter_ruleSep1 (m flag : String) :
    (ruleSep1 m flag).filter (fun e => !(e == msgSep1) && !(e == msgSep2)) = [] := by
  unfold ruleSep1
  split
  · split <;> simp
  · simp

theorem filter_ruleSep2 (m flag : String) :
    (ruleSep2 m flag).filter (fun e => !(e == msgSep1) && !(e == msgSep2)) = [] := by
  unfold ruleSep2
  split
  · split <;> simp
  · simp

/-- C4: disabling blank-line enforcement never adds a violation: the list
produced with the flag `"false"` is a sublist of the one produced with
`"true"`, and is exactly the enforced list with the two separator
violations filtered out — all other rule outcomes coincide. -/
theorem enforcement_only_subtracts (sha message : String) (s b : Nat) :
    (validate_commit_message sha message s b "false").2.Sublist
        (validate_commit_message sha message s b "true").2 ∧
      (validate_commit_message sha message s b "false").2 =
        ((validate_commit_message sha message s b "true").2).filter
          fun e => !(e == msgSep1) && !(e == msgSep2) := by
  have hmb : messageBody message "true" = messageBody message "false" := by
    rw [messageBody_eq_collect, messageBody_eq_collect]
  have hpMS : (fun e => !(e == msgSep1) && !(e == msgSep2)) msgMissingSubject = true := by
    decide
  have hpMB : (fun e => !(e == msgSep1) && !(e == msgSep2)) msgMissingBody = true := by
    decide
  have hpSL : (fun e => !(e == msgSep1) && !(e == msgSep2)) (msgSubjectLen s) = true := by
    simp only [beq_eq_false_iff_ne.mpr (msgSubjectLen_ne_sep1 s),
      beq_eq_false_iff_ne.mpr (msgSubjectLen_ne_sep2 s), Bool.not_false, Bool.and_self]
  have h6 : ∀ L : List String,
      (L.map (msgLine b)).filter (fun e => !(e == msgSep1) && !(e == msgSep2)) =
        L.map (msgLine b) := by
    intro L
    apply List.filter_eq_self.mpr
    intro x hx
    rcases List.mem_map.mp hx with ⟨l, -, hl⟩
    subst hl
    simp only [beq_eq_false_iff_ne.mpr (msgLine_ne_sep1 b l),
      beq_eq_false_iff_ne.mpr (msgLine_ne_sep2 b l), Bool.not_false, Bool.and_self]
  have hfeq : (validate_commit_message sha message s b "false").2 =
      ((validate_commit_message sha message s b "true").2).filter
        fun e => !(e == msgSep1) && !(e == msgSep2) := by
    rw [validationErrors_eq, validationErrors_eq, ruleSep1_false, ruleSep2_false]
    simp only [List.filter_append]
    rw [filter_ruleSep1, filter_ruleSep2]
    unfold ruleMissingSubject ruleSubjectLen ruleMissingBody ruleLineLengths
    rw [filter_keep_ite _ _ _ hpMS, filter_keep_ite _ _ _ hpSL,
      filter_keep_ite _ _ _ hpMB, h6, hmb]
  exact ⟨hfeq ▸ List.filter_sublist _, hfeq⟩

theorem not_mem_ruleMissingBody (m flag : String) {x : String}
    (h : x ≠ msgMissingBody) : x ∉ ruleMissingBody m flag := by
  unfold ruleMissingBody
  exact not_mem_ite_singleton h

theorem not_mem_ruleMissingSubject (m : String) {x : String}
    (h : x ≠ msgMissingSubject) : x ∉ ruleMissingSubject m := by
  unfold ruleMissingSubject
  exact not_mem_ite_singleton h

theorem not_mem_ruleSubjectLen (m : String) (s : Nat) {x : String}
    (h : x ≠ msgSubjectLen s) : x ∉ ruleSubjectLen m s := by
  unfold ruleSubjectLen
  exact not_mem_ite_singleton h

theorem not_mem_append6 {α : Type} {x : α} {a b c d e f : List α}
    (ha : x ∉ a) (hb : x ∉ b) (hc : x ∉ c) (hd : x ∉ d) (he : x ∉ e)
    (hf : x ∉ f) : x ∉ a ++ b ++ c ++ d ++ e ++ f := by
  simp only [List.mem_append]
  tauto

theorem mem_append6_iff_third {α : Type} {x : α} {a b c d e f : List α}
    (ha : x ∉ a) (hb : x ∉ b) (hd : x ∉ d) (he : x ∉ e) (hf : x ∉ f) :
    x ∈ a ++ b ++ c ++ d ++ e ++ f ↔ x ∈ c := by
  simp only [List.mem_append]
  tauto

/-- C9: when the first line is non-blank after stripping and its raw
length is within the subject limit, neither the missing-subject nor the
subject-length violation is emitted, whatever the rest of the
configuration. -/
theorem good_subject_rules_silent (sha message : String) (s b : Nat)
    (flag : String) (h1 : pyStrip (subjectOf message) ≠ "")
    (h2 : (subjectOf message).length ≤ s) :
    msgMissingSubject ∉ (validate_commit_message sha message s b flag).2 ∧
      msgSubjectLen s ∉ (validate_commit_message sha message s b flag).2 := by
  have hr1 : ruleMissingSubject message = [] := by
    unfold ruleMissingSubject
    rw [if_neg]
    intro hc
    exact h1 ((strLenZero _).mp (by simpa using hc))
  have hr2 : ruleSubjectLen message s = [] := by
    unfold ruleSubjectLen
    rw [if_neg (by omega)]
  constructor
  · rw [validationErrors_eq, hr1, hr2]
    exact not_mem_append6 (List.not_mem_nil _) (List.not_mem_nil _)
      (not_mem_ruleSep1 _ _ (by decide)) (not_mem_ruleSep2 _ _ (by decide))
      (not_mem_ruleMissingBody _ _ (by decide))
      (not_mem_ruleLineLengths _ _ _ fun l => Ne.symm (msgLine_ne_missingSubject b l))
  · rw [validationErrors_eq, hr1, hr2]
    exact not_mem_append6 (List.not_mem_nil _) (List.not_mem_nil _)
      (not_mem_ruleSep1 _ _ (msgSubjectLen_ne_sep1 s))
      (not_mem_ruleSep2 _ _ (msgSubjectLen_ne_sep2 s))
      (not_mem_ruleMissingBody _ _ (msgSubjectLen_ne_missingBody s))
      (not_mem_ruleLineLengths _ _ _ fun l => Ne.symm (msgLine_ne_subjectLen b l s))

/-- Witness for C9 at a concrete message and configuration. -/
theorem good_subject_rules_silent_witness :
    pyStrip (subjectOf "Add stuff\n\nBody line.") ≠ "" ∧
      (subjectOf "Add stuff\n\nBody line.").length ≤ 50 ∧
      (msgMissingSubject ∉
          (validate_commit_message "sha" "Add stuff\n\nBody line." 50 72 "true").2 ∧
        msgSubjectLen 50 ∉
          (validate_commit_message "sha" "Add stuff\n\nBody line." 50 72 "true").2) :=
  ⟨by decide, by decide,
    good_subject_rules_silent "sha" "Add stuff\n\nBody line." 50 72 "true"
      (by decide) (by decide)⟩

/-- C3 counterexample: for the message `"   \nBody text here"` (subject is
three spaces, so blank after trimming) with enforcement on, the separator
violation IS produced — the source tests raw truthiness of the subject,
not its trimmed form. -/
theorem separator_fires_on_blank_subject :
    pyStrip (subjectOf "   \nBody text here") = "" ∧
      msgSep1 ∈ (validate_commit_message "sha" "   \nBody text here" 50 72 "true").2 := by
  decide

/-- C3 (amended): with enforcement on, the subject/body separator
violation is produced iff the gap check failed AND the subject is
non-empty as a raw string (a whitespace-only subject counts as present)
AND the collected body is non-empty. -/
theorem separator_violation_iff (sha message : String) (s b : Nat)
    (flag : String) (henf : pyLower flag = "true") :
    msgSep1 ∈ (validate_commit_message sha message s b flag).2 ↔
      (missingSubBodyLine message flag = true ∧ subjectOf message ≠ "" ∧
        messageBody message flag ≠ []) := by
  rw [validationErrors_eq,
    mem_append6_iff_third (not_mem_ruleMissingSubject _ (by decide))
      (not_mem_ruleSubjectLen _ _ (Ne.symm (msgSubjectLen_ne_sep1 s)))
      (not_mem_ruleSep2 _ _ (by decide))
      (not_mem_ruleMissingBody _ _ (by decide))
      (not_mem_ruleLineLengths _ _ _ fun l => Ne.symm (msgLine_ne_sep1 b l))]
  unfold ruleSep1
  rw [if_pos (by simp [henf])]
  split
  case isTrue hc =>
    simp only [List.mem_cons, List.not_mem_nil, or_false, true_iff]
    simpa [Bool.and_eq_true, bne_iff_ne, List.isEmpty_eq_false, and_assoc] using hc
  case isFalse hc =>
    simp only [List.not_mem_nil, false_iff]
    intro hand
    apply hc
    simp [Bool.and_eq_true, bne_iff_ne, List.isEmpty_eq_false, hand.1, hand.2.1,
      hand.2.2]

/-- Witness for C3's amended theorem at a concrete input. -/
theorem separator_violation_iff_witness :
    pyLower "true" = "true" ∧
      (msgSep1 ∈
          (validate_commit_message "sha" "Subject\nBody line\n\nSigned-off-by: A"
            50 72 "true").2 ↔
        (missingSubBodyLine "Subject\nBody line\n\nSigned-off-by: A" "true" = true ∧
          subjectOf "Subject\nBody line\n\nSigned-off-by: A" ≠ "" ∧
          messageBody "Subject\nBody line\n\nSigned-off-by: A" "true" ≠ [])) :=
  ⟨by decide,
    separator_violation_iff "sha" "Subject\nBody line\n\nSigned-off-by: A" 50 72
      "true" (by decide)⟩

/-- C2 counterexample: the body line `"see signed-off-by rules"` mentions
the sign-off marker mid-sentence, yet it IS collected into the body — the
source only drops lines whose raw lowercase form starts with the
marker. -/
theorem body_keeps_marker_mention :
    pyContains (pyLower "see signed-off-by rules") "signed-off-by" = true ∧
      "see signed-off-by rules" ∈
        messageBody "Subject\n\nsee signed-off-by rules\nend." "true" := by
  decide

/-- C2 (amended): a line is collected into the body iff it sits at or
after the start index, is non-blank after stripping, and its raw
(untrimmed) lowercase form does not start with `"signed-off-by"`; lines
merely containing the marker elsewhere, or starting with it only after
leading whitespace, are kept. -/
theorem body_line_exclusion_characterization (message flag l : String) :
    l ∈ messageBody message flag ↔
      ∃ l0 ∈ (splitlines message).drop (bodyStart message flag),
        pyStrip l0 = l ∧ pyStrip l0 ≠ "" ∧
          pyStartsWith (pyLower l0) "signed-off-by" = false := by
  have hms : messageBody message flag =
      collectBody ((splitlines message).drop (bodyStart message flag)) := by
    simp only [messageBody, bodyStart]
    split <;> rfl
  rw [hms]
  unfold collectBody
  constructor
  · intro hl
    rcases List.mem_map.mp hl with ⟨l0, hl0, hstrip⟩
    rcases List.mem_filter.mp hl0 with ⟨hmem, hpred⟩
    rcases Bool.and_eq_true_iff.mp hpred with ⟨hne, hsw⟩
    refine ⟨l0, hmem, hstrip, bne_iff_ne.mp hne, ?_⟩
    rwa [Bool.not_eq_true'] at hsw
  · rintro ⟨l0, hmem, hstrip, hne, hsw⟩
    exact List.mem_map.mpr
      ⟨l0, List.mem_filter.mpr ⟨hmem, by simp [bne_iff_ne, hne, hsw]⟩, hstrip⟩

/-- C1: the well-formed scenario message passes with zero violations at
limits (50, 72) and enforcement on. -/
theorem wellformed_scenario_passes (sha : String) :
    (validate_commit_message sha
      "Add feature\n\nImplements X.\nHandles Y.\n\nSigned-off-by: A <a@b.c>"
      50 72 "true").2 = [] := by
  rw [validationErrors_eq]
  decide

/-- C7: the empty message produces exactly the missing-subject and
missing-body violations, for every pair of limits and any blank-line
flag. -/
theorem empty_message_two_violations (sha : String) (s b : Nat) (flag : String) :
    validate_commit_message sha "" s b flag =
      (sha, [msgMissingSubject, msgMissingBody]) := by
  have hs : splitlines "" = [] := rfl
  have hm : missingSubBodyLine "" flag = false := by
    simp [missingSubBodyLine, hs]
  have hsig : signedOffLine "" = "" := rfl
  have hms : missingBodySignLine "" flag = false := by
    simp [missingBodySignLine, hsig]
  have hb : messageBody "" flag = [] := by
    rw [messageBody_eq_collect]
    rfl
  have e1 : ruleMissingSubject "" = [msgMissingSubject] := by decide
  have e2 : ruleSubjectLen "" s = [] := by
    have h0 : (subjectOf "").length = 0 := by decide
    simp [ruleSubjectLen, h0]
  have e3 : ruleSep1 "" flag = [] := by
    simp [ruleSep1, hm]
  have e4 : ruleSep2 "" flag = [] := by
    simp [ruleSep2, hms]
  have e5 : ruleMissingBody "" flag = [msgMissingBody] := by
    simp [ruleMissingBody, hb]
  have e6 : ruleLineLengths "" flag b = [] := by
    simp [ruleLineLengths, hb]
  have h2 : (validate_commit_message sha "" s b flag).2 =
      [msgMissingSubject, msgMissingBody] := by
    rw [validationErrors_eq, e1, e2, e3, e4, e5, e6]
    rfl
  exact Prod.ext rfl h2

/-- C10: the blank-line flag is a string decoded by lowercasing and
comparing to `"true"`: for every flag value the validator agrees with the
`Bool`-flag reference `validateBool` applied to that decoding, so `"1"`,
`"yes"`, `""` and `"false"` all behave as enforcement off while `"TRUE"`
behaves as on. -/
theorem flag_decoding (sha message : String) (s b : Nat) (flag : String) :
    validate_commit_message sha message s b flag =
        validateBool sha message s b (pyLower flag == "true") ∧
      validate_commit_message sha message s b "1" =
        validateBool sha message s b false ∧
      validate_commit_message sha message s b "yes" =
        validateBool sha message s b false ∧
      validate_commit_message sha message s b "" =
        validateBool sha message s b false ∧
      validate_commit_message sha message s b "false" =
        validateBool sha message s b false ∧
      validate_commit_message sha message s b "TRUE" =
        validateBool sha message s b true :=
  ⟨rfl, rfl, rfl, rfl, rfl, rfl⟩

theorem pyIndex_zero (ls : List String) (h : 0 < ls.length) :
    pyIndex ls 0 = some (ls.getD 0 "") := by
  simp only [pyIndex]
  norm_num
  simp [List.getD_eq_getElem?_getD, List.getElem?_eq_getElem h]

theorem pyIndex_one (ls : List String) (h : 1 < ls.length) :
    pyIndex ls 1 = some (ls.getD 1 "") := by
  simp only [pyIndex]
  norm_num
  simp [List.getD_eq_getElem?_getD, List.getElem?_eq_getElem h]

theorem pyIndex_negIdx (ls : List String) (k : Nat) (h0 : 0 < k)
    (h : k ≤ ls.length) :
    pyIndex ls (-(k : Int)) = some (ls.getD (ls.length - k) "") := by
  simp only [pyIndex]
  rw [if_pos (by omega : -(k : Int) < 0)]
  rw [if_pos (by omega : (0 : Int) ≤ (ls.length : Int) + -(k : Int))]
  have ht : ((ls.length : Int) + -(k : Int)).toNat = ls.length - k := by omega
  rw [ht]
  have hlt : ls.length - k < ls.length := by omega
  simp [List.getD_eq_getElem?_getD, List.getElem?_eq_getElem hlt]

theorem checked_subject_step (message : String) :
    (if 1 ≤ (splitlines message).length then pyIndex (splitlines message) 0
      else pure "") = some (subjectOf message) := by
  by_cases h : 1 ≤ (splitlines message).length
  · rw [if_pos h, pyIndex_zero _ (by omega)]
    simp only [subjectOf]
    rw [if_pos h]
  · rw [if_neg h]
    simp only [subjectOf]
    rw [if_neg h]
    rfl

theorem checked_signoff_step (message : String) :
    (if 0 < (splitlines message).length then
        (pyIndex (splitlines message) (-1)).bind fun last =>
          pure (if pyContains (pyLower last) "signed-off-by" then last else "")
      else pure "") = some (signedOffLine message) := by
  by_cases h : 0 < (splitlines message).length
  · rw [if_pos h, show (-1 : Int) = -((1 : Nat) : Int) by norm_num,
      pyIndex_negIdx _ 1 (by omega) (by omega), Option.some_bind]
    simp only [signedOffLine]
    simp [h]
  · rw [if_neg h]
    simp only [signedOffLine]
    simp [h]

theorem checked_gap_step (message flag : String) :
    (if pyLower flag == "true" then
        if 1 < (splitlines message).length then
          (pyIndex (splitlines message) 1).bind fun line1 =>
            if pyStrip line1 != "" then
              pure (true, collectBody ((splitlines message).drop 1))
            else pure (false, collectBody ((splitlines message).drop 2))
        else pure (false, collectBody ((splitlines message).drop 2))
      else pure (false, collectBody ((splitlines message).drop 1))) =
      some (missingSubBodyLine message flag, messageBody message flag) := by
  by_cases hf : (pyLower flag == "true") = true
  · rw [if_pos hf]
    by_cases h1 : 1 < (splitlines message).length
    · rw [if_pos h1, pyIndex_one _ h1, Option.some_bind]
      have hget : (splitlines message).getD 1 "" = (splitlines message)[1] := by
        simp [List.getD_eq_getElem?_getD, List.getElem?_eq_getElem h1]
      by_cases hb2 : (pyStrip ((splitlines message).getD 1 "") != "") = true
      · rw [if_pos hb2]
        simp only [missingSubBodyLine, messageBody]
        have hne : ¬ pyStrip ((splitlines message)[1]) = "" := by
          rw [hget] at hb2
          simpa using hb2
        simp [hf, h1, hne]
      · rw [if_neg hb2]
        simp only [missingSubBodyLine, messageBody]
        have heq : pyStrip ((splitlines message)[1]) = "" := by
          rw [hget] at hb2
          simpa using hb2
        simp [hf, h1, heq]
    · rw [if_neg h1]
      simp only [missingSubBodyLine, messageBody]
      simp [hf, h1]
  · rw [if_neg hf]
    simp only [missingSubBodyLine, messageBody]
    simp [hf]

theorem checked_signgap_step (message flag : String) :
    (if pyLower flag == "true" then
        if signedOffLine message != "" && decide (2 ≤ (splitlines message).length) then
          (pyIndex (splitlines message) (-2)).bind fun penult =>
            pure (pyStrip penult != "")
        else pure false
      else pure false) = some (missingBodySignLine message flag) := by
  by_cases hf : (pyLower flag == "true") = true
  · rw [if_pos hf]
    by_cases hcond : (signedOffLine message != "" &&
        decide (2 ≤ (splitlines message).length)) = true
    · rcases Bool.and_eq_true_iff.mp hcond with ⟨hso, hdec⟩
      have h2n : 2 ≤ (splitlines message).length := of_decide_eq_true hdec
      rw [if_pos hcond, show (-2 : Int) = -((2 : Nat) : Int) by norm_num,
        pyIndex_negIdx _ 2 (by omega) h2n, Option.some_bind]
      simp only [missingBodySignLine]
      simp [hf, hso, hdec]
    · rw [if_neg hcond]
      simp only [missingBodySignLine]
      have hfalse : (signedOffLine message != "" &&
          decide (2 ≤ (splitlines message).length)) = false := by
        simpa using hcond
      simp [hf, hfalse]
  · rw [if_neg hf]
    simp only [missingBodySignLine]
    simp [hf]

/-- C8: `validate_commit_message` is total: for every message string and
configuration, the variant performing every list indexing through the
guarded `pyIndex` (where an out-of-range access would surface as `none`,
i.e. an `IndexError`) succeeds and returns the sha paired with the same
violation list. -/
theorem validator_total (sha message : String) (s b : Nat) (flag : String) :
    validateChecked sha message s b flag =
      some (validate_commit_message sha message s b flag) := by
  simp only [validateChecked]
  rw [checked_subject_step]
  simp only [Option.some_bind]
  rw [checked_signoff_step]
  simp only [Option.some_bind]
  rw [checked_gap_step]
  simp only [Option.some_bind]
  rw [checked_signgap_step]
  simp only [Option.some_bind]
  rfl
